import Mathlib

/-!
# Verification of the OpenAI Responses API proxy

A shallow embedding of `vllm/entrypoints/openai/serving_responses_proxy.py`:
the request translator, the response translator, the stream translator and
the `create_responses` orchestrator of `OpenAIServingResponsesProxy`, together
with theorems settling the specification claims about them.

Modelling conventions:
* Python dictionaries with a fixed set of relevant keys become structures whose
  fields are `Option`-valued; `none` models an absent key (and, where noted, an
  explicit `None` value, which the source treats identically through
  `dict.get(key, default)`).
* The async generator of the stream translator is modelled as a pure function
  from the (finite) list of underlying chunks to the list of emitted events.
* A Python exception is modelled by `Except String` (the carried string is the
  exception text) or, for the response translator whose only failure is an
  `IndexError`, by `Option`.
* The remote client and the request logger are collaborators outside the
  source; they enter the model as explicit parameters giving the outcome of
  each call (`Except String ...`), so that `create_responses`' try/except can
  be stated over every possible collaborator behaviour.
-/

namespace ProxySpec

/-- A role/content chat message. Fields are `Option`-valued: `none` models an
absent key. This is the shape both a plain message dict and a typed (pydantic)
message normalize to. -/
structure Message where
  role : Option String
  content : Option String
  deriving Repr, DecidableEq

/-- `model_dump(exclude_none=True)` of a typed message: dropping `None`-valued
keys. In the `Option`-field representation, where `none` already means the
key is absent, this is the identity. -/
def model_dump_exclude_none (m : Message) : Message := m

/-- One element of a `ResponsesRequest.input`: in the source, either a plain
`dict` (the `isinstance(msg, dict)` branch) or a pydantic model exposing
`model_dump` (the `hasattr(msg, "model_dump")` branch). -/
inductive InputMessage where
  | raw (m : Message)
  | typed (m : Message)
  deriving Repr, DecidableEq

/-- Spec-side normalization of an input element to a chat message: a raw dict
passes through unchanged, a typed message through its field dump. -/
def normalize_input_message : InputMessage → Message
  | .raw m => m
  | .typed m => model_dump_exclude_none m

/-- `ResponsesRequest`: the fields of the incoming Responses API request that
the proxy reads. `input` is a single message or a list of messages; the six
sampling parameters and the streaming flag are optional (`none` = unset).
Float-valued sampling parameters are modelled over `ℚ`; no arithmetic is ever
performed on them, they are only copied. -/
structure ResponsesRequest where
  model : String
  input : Sum InputMessage (List InputMessage)
  temperature : Option ℚ
  top_p : Option ℚ
  max_tokens : Option ℕ
  presence_penalty : Option ℚ
  frequency_penalty : Option ℚ
  stop : Option (Sum String (List String))
  stream : Option Bool
  deriving Repr, DecidableEq

/-- The chat/completions request dict built by `_convert_responses_to_chat_request`.
`model`, `messages` and `stream` are always set; each optional sampling key is
present (`some`) exactly when the source assigned it. -/
structure ChatRequest where
  model : String
  messages : List Message
  stream : Bool
  temperature : Option ℚ
  top_p : Option ℚ
  max_tokens : Option ℕ
  presence_penalty : Option ℚ
  frequency_penalty : Option ℚ
  stop : Option (Sum String (List String))
  deriving Repr, DecidableEq

/-- `OpenAIServingResponsesProxy._convert_responses_to_chat_request`.
The message loop appends dicts as-is and pydantic models via
`model_dump(exclude_none=True)`; a single (non-list) input is wrapped the same
way. The base dict holds `model`, `messages` and the defaulted `stream` flag;
each sampling parameter is then assigned only when non-`None` on the source. -/
def convert_responses_to_chat_request (request : ResponsesRequest) : ChatRequest :=
  let messages : List Message :=
    match request.input with
    | .inr input_list =>
        input_list.foldl
          (fun acc msg =>
            match msg with
            | .raw m => acc ++ [m]
            | .typed m => acc ++ [model_dump_exclude_none m])
          []
    | .inl (.raw m) => [m]
    | .inl (.typed m) => [model_dump_exclude_none m]
  let chat_request : ChatRequest :=
    { model := request.model
      messages := messages
      stream := match request.stream with | some s => s | none => false
      temperature := none
      top_p := none
      max_tokens := none
      presence_penalty := none
      frequency_penalty := none
      stop := none }
  let chat_request :=
    match request.temperature with
    | some v => { chat_request with temperature := some v }
    | none => chat_request
  let chat_request :=
    match request.top_p with
    | some v => { chat_request with top_p := some v }
    | none => chat_request
  let chat_request :=
    match request.max_tokens with
    | some v => { chat_request with max_tokens := some v }
    | none => chat_request
  let chat_request :=
    match request.presence_penalty with
    | some v => { chat_request with presence_penalty := some v }
    | none => chat_request
  let chat_request :=
    match request.frequency_penalty with
    | some v => { chat_request with frequency_penalty := some v }
    | none => chat_request
  let chat_request :=
    match request.stop with
    | some v => { chat_request with stop := some v }
    | none => chat_request
  chat_request

/-- `ResponseInputOutputMessage`: an output message of a ResponsesResponse. -/
structure ResponseInputOutputMessage where
  role : String
  content : String
  deriving Repr, DecidableEq

/-- `ResponseUsage`: token counters. -/
structure ResponseUsage where
  total_tokens : ℕ
  prompt_tokens : ℕ
  completion_tokens : ℕ
  deriving Repr, DecidableEq

/-- `ResponsesResponse` as the proxy populates it. -/
structure ResponsesResponse where
  id : String
  object : String
  created : ℤ
  model : String
  output : List ResponseInputOutputMessage
  status : String
  usage : Option ResponseUsage
  deriving Repr, DecidableEq

/-- The `message` dict of a chat-completions choice (`choice.get("message", {})`
reads it, `message.get("content", "")` reads the content). -/
structure ChatMessageDict where
  content : Option String
  deriving Repr, DecidableEq

/-- One element of a chat-completions response's `choices` list. -/
structure ChatChoiceDict where
  message : Option ChatMessageDict
  deriving Repr, DecidableEq

/-- The `usage` dict of a chat response or chunk; each counter key optional. -/
structure UsageDict where
  total_tokens : Option ℕ
  prompt_tokens : Option ℕ
  completion_tokens : Option ℕ
  deriving Repr, DecidableEq

/-- A non-streaming chat-completions response dict, with the keys the
translator reads; `none` models an absent key. -/
structure ChatResponseDict where
  choices : Option (List ChatChoiceDict)
  usage : Option UsageDict
  model : Option String
  deriving Repr, DecidableEq

/-- `OpenAIServingResponsesProxy._convert_chat_to_responses_response`.
`chat_response.get("choices", [{}])[0]` substitutes a one-element list of an
empty dict when the `choices` key is absent, then indexes position 0: on a
present-but-empty list this raises `IndexError`, modelled by `none`. Content
and usage fields degrade to `""`/`0` through `dict.get` defaults; a
`ResponseUsage` is always constructed; status is the literal "completed" and
the model name comes from the chat response (default "unknown"), never from
the original request (which this function does not receive). -/
def convert_chat_to_responses_response (chat_response : ChatResponseDict)
    (response_id : String) (created_at : ℤ) : Option ResponsesResponse :=
  match (chat_response.choices.getD [⟨none⟩])[0]? with
  | none => none
  | some choice =>
    let message := choice.message.getD ⟨none⟩
    let content := message.content.getD ""
    let output_message : ResponseInputOutputMessage :=
      { role := "assistant", content := content }
    let usage_data := chat_response.usage.getD ⟨none, none, none⟩
    let usage : ResponseUsage :=
      { total_tokens := usage_data.total_tokens.getD 0
        prompt_tokens := usage_data.prompt_tokens.getD 0
        completion_tokens := usage_data.completion_tokens.getD 0 }
    some
      { id := response_id
        object := "response"
        created := created_at
        model := chat_response.model.getD "unknown"
        output := [output_message]
        status := "completed"
        usage := some usage }

/-- The `delta` dict of a streaming chunk's first choice. -/
structure DeltaDict where
  content : Option String
  deriving Repr, DecidableEq

/-- One element of a streaming chunk's `choices` list. -/
structure StreamChoiceDict where
  delta : Option DeltaDict
  deriving Repr, DecidableEq

/-- One chunk of the underlying chat-completions stream.
`choices` models `chunk_dict.get("choices", [])` (an absent key becomes the
empty list, which the source's `if choices:` guard then skips); `usage = none`
models `chunk_dict.get("usage")` being absent, `None` or otherwise falsy,
which the source's `if usage:` guard skips. -/
structure ChunkDict where
  choices : List StreamChoiceDict
  usage : Option UsageDict
  deriving Repr, DecidableEq

/-- `StreamingResponsesResponse`: the tagged events the stream translator
yields — `ResponseCreatedEvent`, `ResponseInProgressEvent` (which carries no
response payload in the source) and `ResponseCompletedEvent`. -/
inductive StreamingResponsesResponse where
  | created (response : ResponsesResponse)
  | in_progress
  | completed (response : ResponsesResponse)
  deriving Repr, DecidableEq

/-- The accumulation state of the stream translator's chunk loop: the content
accumulator string and the three running token counters. -/
structure StreamAcc where
  accumulated_content : String
  total_tokens : ℕ
  prompt_tokens : ℕ
  completion_tokens : ℕ
  deriving Repr, DecidableEq

/-- One iteration of the stream translator's `async for chunk in chat_stream`
body: if the chunk has a non-empty `choices` list whose first choice carries a
non-empty (truthy) content delta, append it to the accumulator; if the chunk
carries a truthy `usage` dict, overwrite the three counters with its values
(defaulting each to 0). -/
def process_chunk (acc : StreamAcc) (chunk : ChunkDict) : StreamAcc :=
  let acc1 :=
    match chunk.choices[0]? with
    | some choice0 =>
      let delta := choice0.delta.getD ⟨none⟩
      let content_delta := delta.content.getD ""
      if content_delta = "" then acc
      else { acc with accumulated_content := acc.accumulated_content ++ content_delta }
    | none => acc
  match chunk.usage with
  | some u =>
    { acc1 with
      total_tokens := u.total_tokens.getD 0
      prompt_tokens := u.prompt_tokens.getD 0
      completion_tokens := u.completion_tokens.getD 0 }
  | none => acc1

/-- `OpenAIServingResponsesProxy._convert_chat_stream_to_responses_stream`,
with the async generator modelled as a pure function from the finite list of
underlying chunks to the list of yielded events: one `created` event wrapping
an in-progress snapshot, one bare `in_progress` event, then — after folding
the chunk loop over the stream, which yields nothing per chunk — one
`completed` event whose response carries the accumulated content as a single
assistant message and the accumulated usage when `total_tokens > 0`
(else `none`). -/
def convert_chat_stream_to_responses_stream (chat_stream : List ChunkDict)
    (response_id : String) (created_at : ℤ) (model : String) :
    List StreamingResponsesResponse :=
  let created_event : StreamingResponsesResponse :=
    .created
      { id := response_id
        object := "response"
        created := created_at
        model := model
        output := []
        status := "in_progress"
        usage := none }
  let fin := chat_stream.foldl process_chunk ⟨"", 0, 0, 0⟩
  let output_message : ResponseInputOutputMessage :=
    { role := "assistant", content := fin.accumulated_content }
  let usage_obj : Option ResponseUsage :=
    if fin.total_tokens > 0 then
      some
        { total_tokens := fin.total_tokens
          prompt_tokens := fin.prompt_tokens
          completion_tokens := fin.completion_tokens }
    else none
  let final_response : ResponsesResponse :=
    { id := response_id
      object := "response"
      created := created_at
      model := model
      output := [output_message]
      status := "completed"
      usage := usage_obj }
  [created_event, .in_progress, .completed final_response]

/-- `ErrorResponse` with the fields the proxy sets. -/
structure ErrorResponse where
  message : String
  type : String
  code : ℕ
  deriving Repr, DecidableEq

/-- The request-logger collaborator, modelled by the outcome of each of its
two calls: `.ok ()` for a normal return, `.error e` for a raised exception
with text `e`. -/
structure RequestLogger where
  log_request : Except String Unit
  log_response : Except String Unit

/-- The value `create_responses` returns: a translated response, a streaming
event sequence, or an `ErrorResponse`. -/
inductive CreateResponsesResult where
  | response (r : ResponsesResponse)
  | streaming (events : List StreamingResponsesResponse)
  | error (e : ErrorResponse)
  deriving Repr, DecidableEq

/-- The body of `create_responses`' `try:` block. The remote client is
modelled by two functions giving the outcome of `client.chat.completions.create`
on the translated request — `remote_chat` for the non-streaming call,
`remote_stream` for the streaming call (whose successful value is the list of
chunks the returned stream will deliver). `response_id` and `created_at` stand
for the freshly generated `resp_{uuid}` and `int(time.time())`. A raised
exception anywhere in the body is the `Except.error` case; the translator's
`IndexError` carries CPython's message "list index out of range". -/
def create_responses_try (request : ResponsesRequest) (response_id : String)
    (created_at : ℤ) (request_logger : Option RequestLogger)
    (remote_chat : ChatRequest → Except String ChatResponseDict)
    (remote_stream : ChatRequest → Except String (List ChunkDict)) :
    Except String CreateResponsesResult :=
  match (match request_logger with
         | some lg => lg.log_request
         | none => Except.ok ()) with
  | .error e => .error e
  | .ok _ =>
    if (convert_responses_to_chat_request request).stream then
      match remote_stream (convert_responses_to_chat_request request) with
      | .error e => .error e
      | .ok stream =>
        .ok (.streaming
          (convert_chat_stream_to_responses_stream stream response_id created_at
            request.model))
    else
      match remote_chat (convert_responses_to_chat_request request) with
      | .error e => .error e
      | .ok chat_response =>
        match convert_chat_to_responses_response chat_response response_id created_at with
        | none => .error "list index out of range"
        | some response =>
          match request_logger with
          | some lg =>
            (match lg.log_response with
             | .ok _ => .ok (.response response)
             | .error e => .error e)
          | none => .ok (.response response)

/-- `OpenAIServingResponsesProxy.create_responses`: the `try:` body, with the
`except Exception` handler turning any raised exception into an
`ErrorResponse` of type "proxy_error" with `HTTPStatus.INTERNAL_SERVER_ERROR`
(= 500) and the exception text interpolated into the message. -/
def create_responses (request : ResponsesRequest) (response_id : String)
    (created_at : ℤ) (request_logger : Option RequestLogger)
    (remote_chat : ChatRequest → Except String ChatResponseDict)
    (remote_stream : ChatRequest → Except String (List ChunkDict)) :
    CreateResponsesResult :=
  match create_responses_try request response_id created_at request_logger
      remote_chat remote_stream with
  | .ok result => result
  | .error e =>
    .error
      { message := "Proxy error: " ++ e
        type := "proxy_error"
        code := 500 }

/-- `OpenAIServingResponsesProxy.retrieve_responses`: unconditionally returns
a "not_supported" `ErrorResponse` with `HTTPStatus.NOT_IMPLEMENTED` (= 501).
It takes no remote client and performs no remote call. -/
def retrieve_responses (response_id : String) (starting_after : Option ℤ)
    (stream : Option Bool) : ErrorResponse :=
  { message := "Response retrieval is not supported in proxy mode"
    type := "not_supported"
    code := 501 }

/-- `OpenAIServingResponsesProxy.cancel_responses`: unconditionally returns a
"not_supported" `ErrorResponse` with `HTTPStatus.NOT_IMPLEMENTED` (= 501).
It takes no remote client and performs no remote call. -/
def cancel_responses (response_id : String) : ErrorResponse :=
  { message := "Response cancellation is not supported in proxy mode"
    type := "not_supported"
    code := 501 }

/-! ## Spec-side definitions

Definitions written from the specification's words, used to state the claims
about the stream translator independently of its loop. -/

/-- Spec-side: the content delta a chunk carries — the first choice's delta
content, the empty string when the chunk has no choices, no delta or no
content. -/
def chunk_content_delta (chunk : ChunkDict) : String :=
  match chunk.choices[0]? with
  | some choice0 => (choice0.delta.getD ⟨none⟩).content.getD ""
  | none => ""

/-- Spec-side: the concatenation, in arrival order, of every chunk's content
delta, starting from the empty string. -/
def concat_deltas : List ChunkDict → String
  | [] => ""
  | chunk :: rest => chunk_content_delta chunk ++ concat_deltas rest

/-- Spec-side: one last-writer-wins update of the (total, prompt, completion)
counters by a chunk: a chunk carrying usage overwrites all three (each
defaulting to 0), any other chunk leaves them unchanged. -/
def usage_step (acc : ℕ × ℕ × ℕ) (chunk : ChunkDict) : ℕ × ℕ × ℕ :=
  match chunk.usage with
  | some u => (u.total_tokens.getD 0, u.prompt_tokens.getD 0, u.completion_tokens.getD 0)
  | none => acc

/-- Spec-side: the accumulated (total, prompt, completion) counters of a run,
last-writer-wins over the chunks, starting from zeros. -/
def accumulated_usage (chunks : List ChunkDict) : ℕ × ℕ × ℕ :=
  chunks.foldl usage_step (0, 0, 0)

/-! ## Lemmas about the chunk loop -/

/-- One loop iteration appends exactly the chunk's content delta to the
accumulator and performs one last-writer-wins counter update. -/
lemma process_chunk_eq (acc : StreamAcc) (chunk : ChunkDict) :
    process_chunk acc chunk =
      { accumulated_content := acc.accumulated_content ++ chunk_content_delta chunk
        total_tokens :=
          (usage_step (acc.total_tokens, acc.prompt_tokens, acc.completion_tokens) chunk).1
        prompt_tokens :=
          (usage_step (acc.total_tokens, acc.prompt_tokens, acc.completion_tokens) chunk).2.1
        completion_tokens :=
          (usage_step (acc.total_tokens, acc.prompt_tokens, acc.completion_tokens) chunk).2.2 } := by
  rcases acc with ⟨s, t, p, c⟩
  unfold process_chunk chunk_content_delta usage_step
  rcases h0 : chunk.choices[0]? with _ | choice0 <;>
    rcases hu : chunk.usage with _ | u <;>
    simp only [h0, hu]
  · simp [String.append_empty]
  · simp [String.append_empty]
  · by_cases hde : (choice0.delta.getD ⟨none⟩).content.getD "" = "" <;>
      simp [hde, String.append_empty]
  · by_cases hde : (choice0.delta.getD ⟨none⟩).content.getD "" = "" <;>
      simp [hde, String.append_empty]

/-- Folding the chunk loop from any state yields the state's accumulator
followed by the concatenated deltas, and the counters obtained by
last-writer-wins from the state's counters. -/
lemma foldl_process_chunk (chunks : List ChunkDict) (acc : StreamAcc) :
    chunks.foldl process_chunk acc =
      { accumulated_content := acc.accumulated_content ++ concat_deltas chunks
        total_tokens :=
          (chunks.foldl usage_step
            (acc.total_tokens, acc.prompt_tokens, acc.completion_tokens)).1
        prompt_tokens :=
          (chunks.foldl usage_step
            (acc.total_tokens, acc.prompt_tokens, acc.completion_tokens)).2.1
        completion_tokens :=
          (chunks.foldl usage_step
            (acc.total_tokens, acc.prompt_tokens, acc.completion_tokens)).2.2 } := by
  induction chunks generalizing acc with
  | nil => simp [concat_deltas]
  | cons chunk rest ih =>
    simp only [List.foldl_cons, concat_deltas]
    rw [process_chunk_eq, ih]
    simp [String.append_assoc]

/-- If no chunk carries usage, the last-writer-wins fold never moves off its
initial counters. -/
lemma foldl_usage_step_of_no_usage (chunks : List ChunkDict)
    (h : ∀ c ∈ chunks, c.usage = none) (init : ℕ × ℕ × ℕ) :
    chunks.foldl usage_step init = init := by
  induction chunks generalizing init with
  | nil => rfl
  | cons chunk rest ih =>
    have hc : chunk.usage = none := h chunk (by simp)
    simp only [List.foldl_cons, usage_step, hc]
    exact ih (fun c hcmem => h c (by simp [hcmem])) init

/-- The stream translator's output, in closed form: exactly the `created`
event, the `in_progress` event, and the `completed` event wrapping the
accumulated content and the last-writer-wins usage (present only when the
accumulated `total_tokens` is positive). -/
lemma convert_chat_stream_eq (chunks : List ChunkDict) (response_id : String)
    (created_at : ℤ) (model : String) :
    convert_chat_stream_to_responses_stream chunks response_id created_at model =
      [.created ⟨response_id, "response", created_at, model, [], "in_progress", none⟩,
       .in_progress,
       .completed ⟨response_id, "response", created_at, model,
         [⟨"assistant", concat_deltas chunks⟩], "completed",
         if (accumulated_usage chunks).1 > 0 then
           some ⟨(accumulated_usage chunks).1, (accumulated_usage chunks).2.1,
                 (accumulated_usage chunks).2.2⟩
         else none⟩] := by
  unfold convert_chat_stream_to_responses_stream
  rw [foldl_process_chunk]
  simp only [accumulated_usage]
  rfl

/-- The message loop of the request translator appends, in order, each input
element's normalized form. -/
lemma foldl_append_messages (ms : List InputMessage) (acc : List Message) :
    ms.foldl
      (fun acc msg =>
        match msg with
        | .raw m => acc ++ [m]
        | .typed m => acc ++ [model_dump_exclude_none m])
      acc = acc ++ ms.map normalize_input_message := by
  induction ms generalizing acc with
  | nil => simp
  | cons msg rest ih =>
    cases msg <;> simp [List.foldl_cons, normalize_input_message, ih]

/-! ## Claim theorems -/

/-- C1: for every streaming run the last emitted event is the unique
`Completed` event; it wraps a status-"completed" response whose output is a
single assistant message holding the concatenation, in arrival order, of
every chunk's content delta (starting from the empty string), and whose
usage equals the accumulated counters when the accumulated total is
positive and is absent otherwise — in particular absent when no chunk
carries usage. -/
theorem stream_completed_event_content_and_usage (chunks : List ChunkDict)
    (response_id : String) (created_at : ℤ) (model : String) :
    ∃ final : ResponsesResponse,
      (convert_chat_stream_to_responses_stream chunks response_id created_at
          model).getLast? = some (.completed final)
      ∧ (convert_chat_stream_to_responses_stream chunks response_id created_at
          model).countP
            (fun ev => match ev with | .completed _ => true | _ => false) = 1
      ∧ final.status = "completed"
      ∧ final.output = [⟨"assistant", concat_deltas chunks⟩]
      ∧ final.usage =
          (if (accumulated_usage chunks).1 > 0 then
            some ⟨(accumulated_usage chunks).1, (accumulated_usage chunks).2.1,
                  (accumulated_usage chunks).2.2⟩
           else none)
      ∧ ((∀ c ∈ chunks, c.usage = none) → final.usage = none) := by
  rw [convert_chat_stream_eq]
  refine ⟨_, rfl, rfl, rfl, rfl, rfl, ?_⟩
  intro h
  have hz : accumulated_usage chunks = (0, 0, 0) :=
    foldl_usage_step_of_no_usage chunks h (0, 0, 0)
  simp [hz]

/-- Witness for C1: a concrete two-chunk run with no usage chunks. -/
theorem stream_completed_event_content_and_usage_witness :
    ∃ final : ResponsesResponse,
      (convert_chat_stream_to_responses_stream
          [⟨[⟨some ⟨some "Hel"⟩⟩], none⟩, ⟨[⟨some ⟨some "lo!"⟩⟩], none⟩]
          "resp_w1" 0 "m").getLast? = some (.completed final)
      ∧ (convert_chat_stream_to_responses_stream
          [⟨[⟨some ⟨some "Hel"⟩⟩], none⟩, ⟨[⟨some ⟨some "lo!"⟩⟩], none⟩]
          "resp_w1" 0 "m").countP
            (fun ev => match ev with | .completed _ => true | _ => false) = 1
      ∧ final.status = "completed"
      ∧ final.output =
          [⟨"assistant",
            concat_deltas
              [⟨[⟨some ⟨some "Hel"⟩⟩], none⟩, ⟨[⟨some ⟨some "lo!"⟩⟩], none⟩]⟩]
      ∧ final.usage =
          (if (accumulated_usage
                [⟨[⟨some ⟨some "Hel"⟩⟩], none⟩, ⟨[⟨some ⟨some "lo!"⟩⟩], none⟩]).1 > 0 then
            some ⟨(accumulated_usage
                    [⟨[⟨some ⟨some "Hel"⟩⟩], none⟩, ⟨[⟨some ⟨some "lo!"⟩⟩], none⟩]).1,
                  (accumulated_usage
                    [⟨[⟨some ⟨some "Hel"⟩⟩], none⟩, ⟨[⟨some ⟨some "lo!"⟩⟩], none⟩]).2.1,
                  (accumulated_usage
                    [⟨[⟨some ⟨some "Hel"⟩⟩], none⟩, ⟨[⟨some ⟨some "lo!"⟩⟩], none⟩]).2.2⟩
           else none)
      ∧ ((∀ c ∈ [(⟨[⟨some ⟨some "Hel"⟩⟩], none⟩ : ChunkDict),
                  ⟨[⟨some ⟨some "lo!"⟩⟩], none⟩], c.usage = none) →
          final.usage = none) :=
  stream_completed_event_content_and_usage
    [⟨[⟨some ⟨some "Hel"⟩⟩], none⟩, ⟨[⟨some ⟨some "lo!"⟩⟩], none⟩] "resp_w1" 0 "m"

/-- C2 (failing input): on a chat response whose `choices` key holds an
empty list, the translator raises `IndexError` (modelled `none`) — the
`get("choices", [{}])` default only defends against a missing key — instead
of producing the empty-content message the spec requires. -/
theorem empty_choices_translation_raises :
    convert_chat_to_responses_response ⟨some [], none, none⟩ "resp_x" 0 = none := rfl

/-- C3: every streaming run emits exactly three events — one `Created`
wrapping an in-progress response with empty output and no usage, then one
`InProgress`, then one `Completed` — with no event for any individual
chunk. -/
theorem stream_events_are_created_inprogress_completed (chunks : List ChunkDict)
    (response_id : String) (created_at : ℤ) (model : String) :
    ∃ final : ResponsesResponse,
      convert_chat_stream_to_responses_stream chunks response_id created_at model =
        [.created ⟨response_id, "response", created_at, model, [], "in_progress", none⟩,
         .in_progress, .completed final] :=
  ⟨_, convert_chat_stream_eq chunks response_id created_at model⟩

/-- C5: each of the six sampling parameters is present on the translated
chat request exactly when it is non-null on the source request and equals
the source value then (stated as equality of `Option`s), and the translated
stream flag is the source's streaming flag defaulted to `false`. -/
theorem sampling_params_passthrough (request : ResponsesRequest) :
    (convert_responses_to_chat_request request).temperature = request.temperature ∧
    (convert_responses_to_chat_request request).top_p = request.top_p ∧
    (convert_responses_to_chat_request request).max_tokens = request.max_tokens ∧
    (convert_responses_to_chat_request request).presence_penalty =
      request.presence_penalty ∧
    (convert_responses_to_chat_request request).frequency_penalty =
      request.frequency_penalty ∧
    (convert_responses_to_chat_request request).stop = request.stop ∧
    (convert_responses_to_chat_request request).stream = request.stream.getD false := by
  rcases request with ⟨model, input, t, tp, mt, pp, fp, st, sm⟩
  cases t <;> cases tp <;> cases mt <;> cases pp <;> cases fp <;> cases st <;> cases sm <;>
    exact ⟨rfl, rfl, rfl, rfl, rfl, rfl, rfl⟩

/-- C7: for every response id (and retrieval options), `retrieve_responses`
and `cancel_responses` return the fixed "not_supported" `ErrorResponse` with
status code 501; both are total functions of the id alone — no remote client
is involved and no failure path exists. -/
theorem retrieve_and_cancel_always_not_supported (response_id : String)
    (starting_after : Option ℤ) (stream : Option Bool) :
    retrieve_responses response_id starting_after stream =
      ⟨"Response retrieval is not supported in proxy mode", "not_supported", 501⟩ ∧
    cancel_responses response_id =
      ⟨"Response cancellation is not supported in proxy mode", "not_supported", 501⟩ :=
  ⟨rfl, rfl⟩

/-- C9: a single-message input becomes exactly one chat message, its
normalized form; a sequence input becomes one chat message per element, in
the same order. -/
theorem input_messages_in_order (request : ResponsesRequest) :
    (convert_responses_to_chat_request request).messages =
      match request.input with
      | .inl m => [normalize_input_message m]
      | .inr ms => ms.map normalize_input_message := by
  have hbase : (convert_responses_to_chat_request request).messages =
      match request.input with
      | .inr input_list =>
          input_list.foldl
            (fun acc msg =>
              match msg with
              | .raw m => acc ++ [m]
              | .typed m => acc ++ [model_dump_exclude_none m])
            []
      | .inl (.raw m) => [m]
      | .inl (.typed m) => [model_dump_exclude_none m] := by
    rcases request with ⟨model, input, t, tp, mt, pp, fp, st, sm⟩
    cases t <;> cases tp <;> cases mt <;> cases pp <;> cases fp <;> cases st <;> rfl
  rw [hbase]
  rcases request.input with m | ms
  · cases m <;> rfl
  · show ms.foldl
        (fun acc msg =>
          match msg with
          | .raw m => acc ++ [m]
          | .typed m => acc ++ [model_dump_exclude_none m])
        [] = ms.map normalize_input_message
    rw [foldl_append_messages]
    simp

/-- C4 counterexample: with a logger whose `log_response` raises, a
successful non-streaming inference is answered with a "proxy_error"
`ErrorResponse` — not with the successfully translated response. -/
theorem logging_failure_returns_proxy_error :
    create_responses
        ⟨"m", .inl (.raw ⟨some "user", some "Hi"⟩),
          none, none, none, none, none, none, none⟩ "resp_1" 0
        (some ⟨.ok (), .error "disk full"⟩)
        (fun _ => .ok ⟨some [⟨some ⟨some "Hello!"⟩⟩], none, some "m"⟩)
        (fun _ => .error "unreachable") =
      .error ⟨"Proxy error: disk full", "proxy_error", 500⟩
    ∧ create_responses
        ⟨"m", .inl (.raw ⟨some "user", some "Hi"⟩),
          none, none, none, none, none, none, none⟩ "resp_1" 0
        (some ⟨.ok (), .error "disk full"⟩)
        (fun _ => .ok ⟨some [⟨some ⟨some "Hello!"⟩⟩], none, some "m"⟩)
        (fun _ => .error "unreachable") ≠
      .response ⟨"resp_1", "response", 0, "m", [⟨"assistant", "Hello!"⟩],
        "completed", some ⟨0, 0, 0⟩⟩ := by
  exact ⟨rfl, by decide⟩

/-- C4 (amended): a logging failure during the non-streaming path is caught
at the orchestrator boundary — it is never propagated as an exception — but
it is converted to a "proxy_error" `ErrorResponse` (code 500) carrying the
logging error's text; the successfully translated response is not
returned. -/
theorem logging_failure_tolerated_not_propagated (request : ResponsesRequest)
    (response_id : String) (created_at : ℤ) (e : String)
    (remote_chat : ChatRequest → Except String ChatResponseDict)
    (remote_stream : ChatRequest → Except String (List ChunkDict))
    (chat_response : ChatResponseDict) (translated : ResponsesResponse)
    (hstream : (convert_responses_to_chat_request request).stream = false)
    (hremote : remote_chat (convert_responses_to_chat_request request)
      = .ok chat_response)
    (htrans : convert_chat_to_responses_response chat_response response_id created_at
      = some translated) :
    create_responses request response_id created_at (some ⟨.ok (), .error e⟩)
      remote_chat remote_stream =
      .error ⟨"Proxy error: " ++ e, "proxy_error", 500⟩ := by
  unfold create_responses create_responses_try
  simp [hstream, hremote, htrans]

/-- Witness for the amended C4 at a concrete request, remote and logger. -/
theorem logging_failure_tolerated_not_propagated_witness :
    create_responses
        ⟨"m", .inl (.raw ⟨some "user", some "Hi"⟩),
          none, none, none, none, none, none, none⟩ "resp_w2" 0
        (some ⟨.ok (), .error "log boom"⟩)
        (fun _ => .ok ⟨some [⟨some ⟨some "Hello!"⟩⟩], none, some "m"⟩)
        (fun _ => .error "unreachable") =
      .error ⟨"Proxy error: " ++ "log boom", "proxy_error", 500⟩ :=
  logging_failure_tolerated_not_propagated _ _ _ _ _ _
    ⟨some [⟨some ⟨some "Hello!"⟩⟩], none, some "m"⟩
    ⟨"resp_w2", "response", 0, "m", [⟨"assistant", "Hello!"⟩], "completed",
      some ⟨0, 0, 0⟩⟩
    rfl rfl rfl

/-- C6 counterexample: the non-streaming translator attaches a non-null,
zero-valued usage object even when the chat response carries no usage at
all — before any real token totals are known. -/
theorem nonstreaming_usage_nonnull_without_totals :
    convert_chat_to_responses_response ⟨some [⟨some ⟨some "Hi"⟩⟩], none, some "m"⟩
      "resp_c6" 0 =
      some ⟨"resp_c6", "response", 0, "m", [⟨"assistant", "Hi"⟩], "completed",
            some ⟨0, 0, 0⟩⟩ := rfl

/-- C6 (amended): every streaming snapshot with status "in_progress" has
absent usage, and a streaming snapshot carries non-null usage only when the
accumulated total_tokens is positive; the non-streaming translator instead
always attaches a usage object (zero-valued when the source lacks usage) to
its always-"completed" responses. -/
theorem usage_presence_invariant :
    (∀ chunks response_id created_at model ev resp,
        ev ∈ convert_chat_stream_to_responses_stream chunks response_id created_at
          model →
        (ev = StreamingResponsesResponse.created resp ∨
         ev = StreamingResponsesResponse.completed resp) →
        resp.status = "in_progress" → resp.usage = none) ∧
    (∀ chunks response_id created_at model ev resp,
        ev ∈ convert_chat_stream_to_responses_stream chunks response_id created_at
          model →
        (ev = StreamingResponsesResponse.created resp ∨
         ev = StreamingResponsesResponse.completed resp) →
        resp.usage ≠ none → (accumulated_usage chunks).1 > 0) ∧
    (∀ chat_response response_id created_at resp,
        convert_chat_to_responses_response chat_response response_id created_at
          = some resp →
        resp.status = "completed" ∧ resp.usage ≠ none) := by
  refine ⟨?_, ?_, ?_⟩
  · intro chunks response_id created_at model ev resp hmem hev hst
    rw [convert_chat_stream_eq] at hmem
    simp only [List.mem_cons, List.not_mem_nil, or_false] at hmem
    rcases hmem with rfl | rfl | rfl
    · rcases hev with he | he
      · injection he with h
        subst h
        rfl
      · simp at he
    · rcases hev with he | he <;> simp at he
    · rcases hev with he | he
      · simp at he
      · injection he with h
        subst h
        simp at hst
  · intro chunks response_id created_at model ev resp hmem hev hne
    rw [convert_chat_stream_eq] at hmem
    simp only [List.mem_cons, List.not_mem_nil, or_false] at hmem
    rcases hmem with rfl | rfl | rfl
    · rcases hev with he | he
      · injection he with h
        subst h
        simp at hne
      · simp at he
    · rcases hev with he | he <;> simp at he
    · rcases hev with he | he
      · simp at he
      · injection he with h
        subst h
        by_cases hc : (accumulated_usage chunks).1 > 0
        · exact hc
        · simp [hc] at hne
  · intro chat_response response_id created_at resp h
    unfold convert_chat_to_responses_response at h
    rcases h0 : (chat_response.choices.getD [⟨none⟩])[0]? with _ | choice
    · rw [h0] at h
      cases h
    · rw [h0] at h
      injection h with h2
      subst h2
      exact ⟨rfl, by simp⟩

/-- Witness for the amended C6: the created event of a concrete run has
absent usage, and a concrete usage-free chat response translates to a
completed response with (zero-valued) non-null usage. -/
theorem usage_presence_invariant_witness :
    ((StreamingResponsesResponse.created
        ⟨"resp_w4", "response", 0, "m", [], "in_progress", none⟩ :
          StreamingResponsesResponse) =
      StreamingResponsesResponse.created
        ⟨"resp_w4", "response", 0, "m", [], "in_progress", none⟩ →
      (⟨"resp_w4", "response", 0, "m", [], "in_progress", none⟩ :
        ResponsesResponse).status = "in_progress" →
      (⟨"resp_w4", "response", 0, "m", [], "in_progress", none⟩ :
        ResponsesResponse).usage = none) ∧
    ((⟨"resp_w4", "response", 0, "m", [⟨"assistant", "Hi"⟩], "completed",
        some ⟨0, 0, 0⟩⟩ : ResponsesResponse).status = "completed" ∧
      (⟨"resp_w4", "response", 0, "m", [⟨"assistant", "Hi"⟩], "completed",
        some ⟨0, 0, 0⟩⟩ : ResponsesResponse).usage ≠ none) :=
  ⟨fun hev hst =>
    usage_presence_invariant.1 [] "resp_w4" 0 "m"
      (StreamingResponsesResponse.created
        ⟨"resp_w4", "response", 0, "m", [], "in_progress", none⟩)
      ⟨"resp_w4", "response", 0, "m", [], "in_progress", none⟩
      (by rw [convert_chat_stream_eq]; exact List.mem_cons_self _ _)
      (Or.inl hev) hst,
   usage_presence_invariant.2.2 ⟨some [⟨some ⟨some "Hi"⟩⟩], none, some "m"⟩
     "resp_w4" 0 _ rfl⟩

/-- C8: every exception on the non-streaming path — a raising `log_request`,
a failing remote call, a translation failure (the `IndexError`, whose text is
"list index out of range"), or a raising `log_response` — is caught at the
orchestrator boundary and converted to an `ErrorResponse` of type
"proxy_error" with code 500 whose message embeds the original exception
text; `create_responses` is a total function, so no exception ever reaches
the caller. -/
theorem nonstreaming_exceptions_become_proxy_errors :
    (∀ request response_id created_at (e : String) lgresp remote_chat remote_stream,
        (convert_responses_to_chat_request request).stream = false →
        create_responses request response_id created_at
            (some ⟨Except.error e, lgresp⟩) remote_chat remote_stream =
          .error ⟨"Proxy error: " ++ e, "proxy_error", 500⟩) ∧
    (∀ request response_id created_at (e : String) remote_chat remote_stream,
        (convert_responses_to_chat_request request).stream = false →
        remote_chat (convert_responses_to_chat_request request) = .error e →
        create_responses request response_id created_at none remote_chat
            remote_stream =
          .error ⟨"Proxy error: " ++ e, "proxy_error", 500⟩) ∧
    (∀ request response_id created_at chat_response remote_chat remote_stream,
        (convert_responses_to_chat_request request).stream = false →
        remote_chat (convert_responses_to_chat_request request) = .ok chat_response →
        convert_chat_to_responses_response chat_response response_id created_at
          = none →
        create_responses request response_id created_at none remote_chat
            remote_stream =
          .error ⟨"Proxy error: " ++ "list index out of range", "proxy_error", 500⟩) ∧
    (∀ request response_id created_at (e : String) chat_response resp
        remote_chat remote_stream,
        (convert_responses_to_chat_request request).stream = false →
        remote_chat (convert_responses_to_chat_request request) = .ok chat_response →
        convert_chat_to_responses_response chat_response response_id created_at
          = some resp →
        create_responses request response_id created_at
            (some ⟨Except.ok (), Except.error e⟩) remote_chat remote_stream =
          .error ⟨"Proxy error: " ++ e, "proxy_error", 500⟩) := by
  refine ⟨?_, ?_, ?_, ?_⟩
  · intro request response_id created_at e lgresp remote_chat remote_stream hstream
    unfold create_responses create_responses_try
    simp [hstream]
  · intro request response_id created_at e remote_chat remote_stream hstream hremote
    unfold create_responses create_responses_try
    simp [hstream, hremote]
  · intro request response_id created_at chat_response remote_chat remote_stream
      hstream hremote htrans
    unfold create_responses create_responses_try
    simp [hstream, hremote, htrans]
  · intro request response_id created_at e chat_response resp remote_chat
      remote_stream hstream hremote htrans
    unfold create_responses create_responses_try
    simp [hstream, hremote, htrans]

/-- Witness for C8: a concrete non-streaming request whose remote call fails
with "connection refused". -/
theorem nonstreaming_exceptions_become_proxy_errors_witness :
    create_responses
        ⟨"m", .inl (.raw ⟨some "user", some "Hi"⟩),
          none, none, none, none, none, none, none⟩ "resp_w3" 0 none
        (fun _ => .error "connection refused") (fun _ => .error "unreachable") =
      .error ⟨"Proxy error: " ++ "connection refused", "proxy_error", 500⟩ :=
  nonstreaming_exceptions_become_proxy_errors.2.1 _ "resp_w3" 0
    "connection refused" _ _ rfl rfl

/-- C10: the two paths source the model field differently — the
non-streaming translator takes it from the chat response's `model` key
(substituting "unknown" when absent; the translator does not even receive
the original request), while every response wrapped in a streaming event
carries the translator's `model` argument, which `create_responses`
instantiates with the original request's model. -/
theorem response_model_field_sources :
    (∀ chat_response response_id created_at resp,
        convert_chat_to_responses_response chat_response response_id created_at
          = some resp →
        resp.model = chat_response.model.getD "unknown") ∧
    (∀ chunks response_id created_at model ev resp,
        ev ∈ convert_chat_stream_to_responses_stream chunks response_id created_at
          model →
        (ev = StreamingResponsesResponse.created resp ∨
         ev = StreamingResponsesResponse.completed resp) →
        resp.model = model) ∧
    (∀ request response_id created_at remote_chat remote_stream chunks,
        (convert_responses_to_chat_request request).stream = true →
        remote_stream (convert_responses_to_chat_request request) = .ok chunks →
        create_responses request response_id created_at none remote_chat
            remote_stream =
          .streaming (convert_chat_stream_to_responses_stream chunks response_id
            created_at request.model)) := by
  refine ⟨?_, ?_, ?_⟩
  · intro chat_response response_id created_at resp h
    unfold convert_chat_to_responses_response at h
    rcases h0 : (chat_response.choices.getD [⟨none⟩])[0]? with _ | choice
    · rw [h0] at h
      cases h
    · rw [h0] at h
      injection h with h2
      subst h2
      rfl
  · intro chunks response_id created_at model ev resp hmem hev
    rw [convert_chat_stream_eq] at hmem
    simp only [List.mem_cons, List.not_mem_nil, or_false] at hmem
    rcases hmem with rfl | rfl | rfl
    · rcases hev with he | he
      · injection he with h
        subst h
        rfl
      · simp at he
    · rcases hev with he | he <;> simp at he
    · rcases hev with he | he
      · simp at he
      · injection he with h
        subst h
        rfl
  · intro request response_id created_at remote_chat remote_stream chunks
      hstream hremote
    unfold create_responses create_responses_try
    simp [hstream, hremote]

/-- Witness for C10: a model-less concrete chat response translates with
model "unknown", and a concrete streaming run through `create_responses`
wraps the request's model into its events. -/
theorem response_model_field_sources_witness :
    (⟨"resp_w5", "response", 0, "unknown", [⟨"assistant", "Hi"⟩], "completed",
        some ⟨0, 0, 0⟩⟩ : ResponsesResponse).model =
      (⟨some [⟨some ⟨some "Hi"⟩⟩], none, none⟩ : ChatResponseDict).model.getD
        "unknown" ∧
    create_responses
        ⟨"req-model", .inl (.raw ⟨some "user", some "Hi"⟩),
          none, none, none, none, none, none, some true⟩ "resp_w5" 0 none
        (fun _ => .error "unreachable") (fun _ => .ok []) =
      .streaming (convert_chat_stream_to_responses_stream [] "resp_w5" 0
        "req-model") :=
  ⟨response_model_field_sources.1 ⟨some [⟨some ⟨some "Hi"⟩⟩], none, none⟩
      "resp_w5" 0 _ rfl,
   response_model_field_sources.2.2
      ⟨"req-model", .inl (.raw ⟨some "user", some "Hi"⟩),
        none, none, none, none, none, none, some true⟩ "resp_w5" 0 _ _ [] rfl rfl⟩

end ProxySpec
